import Mathlib

/-!
# Verification of the ATM tram schedule query tool

A shallow embedding of `check-tram-schedule.py` (GTFS tram-schedule query
tool) together with proofs about its behaviour.

Modelling conventions:
* Python strings are Lean `String`s; character-level operations
  (`lower`, slicing, `replace`) act on `String.data : List Char`.
* The GTFS tables are lists of row records, in file order, as produced by
  `csv.DictReader`.
* Python `dict`s keyed by strings are association lists in insertion
  order, with insert-or-update semantics (`upsert`).
* Side effects (network fetch, archive extraction, directory creation,
  file writes, cache-store reads/writes, table reads) are collected in an
  explicit trace of `Effect`s.
* Library calls that can fail (`json.loads`, `datetime.fromisoformat`)
  are modelled as `Option`-valued parser parameters of the environment:
  `none` stands for the call raising, which the source catches with
  `try/except`.
* `hashlib.sha256(...).hexdigest()` is modelled as an abstract function
  field of the environment; every statement about fingerprints is made
  about the pre-hash input string, since equal inputs force equal
  digests.
-/

namespace TramSchedule

/-! ## Configuration constants (lines 17–30 of the source) -/

def GTFS_CACHE_TTL : Int := 86400

def SCHEDULE_CACHE_TTL : Int := 3600

def DATA_DIR : String := "/data/generated/atm-tram-schedule"

def GTFS_DIR : String := DATA_DIR ++ "/gtfs"

/-- The `SERVICE_PATTERNS` dictionary: schedule type → service-id substring. -/
def SERVICE_PATTERNS : List (String × String) :=
  [("weekday", " LV "), ("saturday", " SAB "), ("sunday", " FEST ")]

def validScheduleTypes : List String := SERVICE_PATTERNS.map Prod.fst

/-! ## Query-cache fingerprint input (source line 364)

`cache_input = f"{line}:{stop_name}:{schedule_type}"`. The fingerprint is
the SHA-256 hex digest of this string, so two triples share a fingerprint
whenever they share this pre-hash encoding. -/

def cacheInput (line stopName scheduleType : String) : String :=
  line ++ ":" ++ stopName ++ ":" ++ scheduleType

/-! ## Report-file slug (source lines 424–430)

`slug = f"line{line}-{stop_name.lower()[:30].replace(' ', '')}"` when a
stop name is given, else `f"line{line}-all"`. -/

/-- The stop-name fragment of the slug, exactly as the source computes it:
lowercase the whole name, keep the first 30 characters, then delete the
spaces among those. -/
def pySlugFragment (stop : String) : String :=
  ⟨((stop.data.map Char.toLower).take 30).filter (fun c => c ≠ ' ')⟩

/-- The fragment as the claim describes it: lowercase, delete all spaces,
then keep the first 30 characters of what is left. -/
def claimedSlugFragment (stop : String) : String :=
  ⟨((stop.data.map Char.toLower).filter (fun c => c ≠ ' ')).take 30⟩

/-- The fragment in the amended reading of the claim: lowercase, truncate
to 30 characters, then strip spaces (truncation before stripping). -/
def amendedSlugFragment (stop : String) : String :=
  ⟨((stop.data.map Char.toLower).take 30).filter (fun c => c ≠ ' ')⟩

/-- The full slug used in the report-file name. -/
def slugFor (line stop : String) : String :=
  if stop = "" then "line" ++ line ++ "-all"
  else "line" ++ line ++ "-" ++ pySlugFragment stop

/-! ## GTFS table rows, as read by `csv.DictReader` -/

structure RouteRow where
  route_id : String
  route_short_name : String
  route_long_name : String
  route_type : String
deriving DecidableEq, Repr

structure RouteData where
  short_name : String
  long_name : String
  type : String
deriving DecidableEq, Repr

structure StopRow where
  stop_id : String
  stop_name : String
  stop_lat : String
  stop_lon : String
deriving DecidableEq, Repr

structure StopData where
  name : String
  lat : String
  lon : String
deriving DecidableEq, Repr

/-- `trip_headsign` is read with `row.get('trip_headsign', 'Unknown')`, so it
may be absent. -/
structure TripRow where
  trip_id : String
  route_id : String
  service_id : String
  trip_headsign : Option String
deriving DecidableEq, Repr

structure StopTimeRow where
  trip_id : String
  stop_id : String
  departure_time : String
deriving DecidableEq, Repr

/-- Python-dict assignment `m[k] = v`: overwrite in place if the key is
present (keeping its position), else append. -/
def upsert {β : Type} (m : List (String × β)) (k : String) (v : β) :
    List (String × β) :=
  if m.any (fun p => p.1 = k) then
    m.map (fun p => if p.1 = k then (k, v) else p)
  else m ++ [(k, v)]

/-- `load_routes` (source lines 148–163). -/
def loadRoutes (rows : List RouteRow) : List (String × RouteData) :=
  rows.foldl
    (fun m r => upsert m r.route_id
      ⟨r.route_short_name, r.route_long_name, r.route_type⟩) []

/-- `load_stops` (source lines 166–181). -/
def loadStops (rows : List StopRow) : List (String × StopData) :=
  rows.foldl
    (fun m r => upsert m r.stop_id ⟨r.stop_name, r.stop_lat, r.stop_lon⟩) []

/-! ## Query engine -/

/-- `find_route_id` (source lines 184–196): exact "T"-prefixed id first,
then the first route with matching short name and tram type "0". -/
def findRouteId (line : String) (routes : List (String × RouteData)) :
    Option String :=
  let tramId := "T" ++ line
  if (routes.lookup tramId).isSome then some tramId
  else
    (routes.find? (fun p => decide (p.2.short_name = line ∧ p.2.type = "0"))).map
      Prod.fst

/-- Loop of `find_trips` (source lines 199–217): scan rows in order,
insert matches into the trips dict, stop as soon as the dict holds
`limit` entries. -/
def findTripsGo (routeId pat : String) (limit : Nat) :
    List TripRow → List (String × String) → List (String × String)
  | [], acc => acc
  | r :: rs, acc =>
    if r.route_id = routeId ∧ pat.data <:+: r.service_id.data then
      let acc' := upsert acc r.trip_id (r.trip_headsign.getD "Unknown")
      if limit ≤ acc'.length then acc'
      else findTripsGo routeId pat limit rs acc'
    else findTripsGo routeId pat limit rs acc

def findTrips (routeId pat : String) (limit : Nat) (rows : List TripRow) :
    List (String × String) :=
  findTripsGo routeId pat limit rows []

/-- The row predicate of the `find_trips` loop, as a Boolean: matching
route id and the service pattern occurring inside the service id. -/
def tripMatch (routeId pat : String) (r : TripRow) : Bool :=
  decide (r.route_id = routeId ∧ pat.data <:+: r.service_id.data)

/-- The (trip id, headsign) pair a matching row contributes. -/
def tripEntry (r : TripRow) : String × String :=
  (r.trip_id, r.trip_headsign.getD "Unknown")

/-- `find_stops_by_name` (source lines 220–229): ids of stops whose
lowercased name contains the lowercased filter as a substring. -/
def findStopsByName (name : String) (stops : List (String × StopData)) :
    List String :=
  (stops.filter
    (fun p => decide ((name.data.map Char.toLower) <:+:
      (p.2.name.data.map Char.toLower)))).map Prod.fst

/-- `times_by_stop[stop_id].append(p)` on a `defaultdict(list)`. -/
def addTime (m : List (String × List (String × String))) (sid : String)
    (p : String × String) : List (String × List (String × String)) :=
  if m.any (fun q => q.1 = sid) then
    m.map (fun q => if q.1 = sid then (q.1, q.2 ++ [p]) else q)
  else m ++ [(sid, [p])]

/-- The scanning loop of `get_stop_times` (source lines 246–257): keep rows
whose trip is selected and, when a stop-id list is given, whose stop is in
that list. -/
def collectTimes (tripInfo : List (String × String))
    (stopIds : Option (List String)) (rows : List StopTimeRow) :
    List (String × List (String × String)) :=
  rows.foldl
    (fun m row =>
      match tripInfo.lookup row.trip_id with
      | none => m
      | some headsign =>
        if (match stopIds with
            | none => true
            | some ids => decide (row.stop_id ∈ ids)) then
          addTime m row.stop_id (row.departure_time, headsign)
        else m) []

/-- Lexicographic (code-point) comparison of character lists: Python's
string `<=`. -/
def charListLe : List Char → List Char → Bool
  | [], _ => true
  | _ :: _, [] => false
  | a :: as, b :: bs =>
    if a < b then true else if b < a then false else charListLe as bs

/-- Ordering by first component, the sort key of
`sorted(set(times_list), key=lambda x: x[0])` and of `sorted(routes.items())`
(pairs with distinct keys). -/
def fstLe {β : Type} : (String × β) → (String × β) → Prop :=
  fun p q => charListLe p.1.data q.1.data = true

instance {β : Type} : DecidableRel (fstLe (β := β)) :=
  fun _ _ => inferInstanceAs (Decidable (_ = true))

instance {β : Type} : IsTotal (String × β) fstLe := by
  constructor
  intro p q
  show charListLe p.1.data q.1.data = true ∨ charListLe q.1.data p.1.data = true
  generalize p.1.data = a
  generalize q.1.data = b
  induction a generalizing b with
  | nil => exact Or.inl rfl
  | cons x xs ih =>
    cases b with
    | nil => exact Or.inr rfl
    | cons y ys =>
      rcases lt_trichotomy x y with h | h | h
      · exact Or.inl (by simp [charListLe, h])
      · subst h
        rcases ih ys with h' | h'
        · exact Or.inl (by simp [charListLe, h'])
        · exact Or.inr (by simp [charListLe, h'])
      · exact Or.inr (by simp [charListLe, h])

instance {β : Type} : IsTrans (String × β) fstLe := by
  constructor
  intro p q w h1 h2
  show charListLe p.1.data w.1.data = true
  rw [show (fstLe p q) = (charListLe p.1.data q.1.data = true) from rfl] at h1
  rw [show (fstLe q w) = (charListLe q.1.data w.1.data = true) from rfl] at h2
  generalize hga : p.1.data = a at h1 ⊢
  generalize hgb : q.1.data = b at h1 h2
  generalize hgc : w.1.data = c at h2 ⊢
  clear hga hgb hgc p q w
  induction a generalizing b c with
  | nil => rfl
  | cons x xs ih =>
    cases b with
    | nil => simp [charListLe] at h1
    | cons y ys =>
      cases c with
      | nil => simp [charListLe] at h2
      | cons z zs =>
        rcases lt_trichotomy x y with hab | hab | hab
        · rcases lt_trichotomy y z with hbc | hbc | hbc
          · simp [charListLe, lt_trans hab hbc]
          · subst hbc; simp [charListLe, hab]
          · simp [charListLe, hbc, not_lt_of_gt hbc] at h2
        · subst hab
          rcases lt_trichotomy x z with hac | hac | hac
          · simp [charListLe, hac]
          · subst hac
            simp only [charListLe, if_neg (lt_irrefl x)] at h1 h2 ⊢
            exact ih ys h1 zs h2
          · simp [charListLe, hac, not_lt_of_gt hac] at h2
        · simp [charListLe, hab, not_lt_of_gt hab] at h1

/-- `get_stop_times` (source lines 232–266): collect, then per stop
deduplicate the (time, headsign) pairs and sort them by time. -/
def getStopTimes (tripInfo : List (String × String))
    (stopIds : Option (List String)) (rows : List StopTimeRow) :
    List (String × List (String × String)) :=
  (collectTimes tripInfo stopIds rows).map
    (fun q => (q.1, (q.2.dedup).insertionSort fstLe))

/-- The per-direction grouping of `format_output` (source lines 316–318):
the departure times of one headsign, in the order they appear in the
stop's list. -/
def directionTimes (hs : String) (lst : List (String × String)) :
    List String :=
  (lst.filter (fun p => decide (p.2 = hs))).map Prod.fst

/-! ## Cache check -/

/-- The fields of a parsed query-cache JSON entry that the code reads;
`none` models an absent key. -/
structure CacheData where
  timestamp : Option String
  text_path : Option String
deriving DecidableEq, Repr

/-- `check_cache` (source lines 67–85). `parseJson` models `json.loads`
plus the `["timestamp"]` / `.get("text_path")` accesses; `parseIso`
models `datetime.fromisoformat` of the timestamp string, giving epoch
seconds; `none` stands for the library call raising, which the source
catches and turns into a miss. An empty entry string is falsy in Python
(`if not cache_entry`), as is an empty `text_path`. -/
def checkCache (parseJson : String → Option CacheData)
    (parseIso : String → Option Int) (now : Int)
    (fileExists : String → Bool) (entry : Option String) (ttl : Int) :
    Option CacheData :=
  match entry with
  | none => none
  | some s =>
    if s = "" then none
    else
      match parseJson s with
      | none => none
      | some d =>
        match d.timestamp with
        | none => none
        | some tsStr =>
          match parseIso tsStr with
          | none => none
          | some t =>
            if now - t < ttl then
              match d.text_path with
              | none => none
              | some p => if p ≠ "" ∧ fileExists p then some d else none
            else none

/-! ## Effects and environment -/

/-- Observable side effects of one invocation, in program order. Reads of
file metadata (existence checks) are not recorded; reads and writes of
the cache store, table reads, network fetches, archive extraction,
directory creation and report-file writes are. -/
inductive Effect where
  | cacheRead (key : String)
  | cacheWrite (key : String)
  | netFetch
  | extractZip
  | mkdirFs (path : String)
  | fileWrite (path : String)
  | readTable (name : String)
deriving DecidableEq, Repr

/-- The world one invocation runs in: parsed arguments, the cache store
contents, the filesystem facts the code branches on, clock strings, the
outcome of the fallible external steps, and the GTFS table contents. -/
structure Env where
  line : String
  stopName : String
  scheduleType : String
  cache : List (String × String)
  parseJson : String → Option CacheData
  parseIso : String → Option Int
  now : Int
  fileExists : String → Bool
  routesExists : Bool
  stopsExists : Bool
  tripsExists : Bool
  stopTimesExists : Bool
  zipExists : Bool
  fetchOk : Bool
  extractOk : Bool
  hashHex : String → String
  nowIso : String
  datePath : String
  tsFileStr : String
  routesRows : List RouteRow
  stopsRows : List StopRow
  tripsRows : List TripRow
  stopTimesRows : List StopTimeRow

def gtfsCacheKey : String := "atm-tram-schedule:gtfs:timestamp"

/-- The freshness condition of `download_gtfs` (source lines 96–115): all
four table files exist, the recorded timestamp is present (and non-empty:
Python truthiness), parses, and is younger than the dataset TTL. -/
def datasetFresh (e : Env) : Bool :=
  (e.routesExists && e.stopsExists && e.tripsExists && e.stopTimesExists) &&
    (match e.cache.lookup gtfsCacheKey with
     | none => false
     | some ts =>
       (ts != "") &&
         (match e.parseIso ts with
          | none => false
          | some t => decide (e.now - t < GTFS_CACHE_TTL)))

/-- The extract-then-record tail of `download_gtfs` (source lines
131–145). -/
def extractStep (e : Env) (eff : List Effect) : Bool × List Effect :=
  if e.extractOk then
    (true, eff ++ [Effect.extractZip, Effect.cacheWrite gtfsCacheKey])
  else (false, eff ++ [Effect.extractZip])

/-- `download_gtfs` (source lines 88–145): return early on freshness; else
make the directory, fetch the archive only if it is absent, extract it,
and record a new timestamp. The returned flag is the function's boolean
result; the list is the trace of its effects. -/
def downloadGtfs (e : Env) : Bool × List Effect :=
  if datasetFresh e then (true, [Effect.cacheRead gtfsCacheKey])
  else
    let eff0 := [Effect.cacheRead gtfsCacheKey, Effect.mkdirFs GTFS_DIR]
    if !e.zipExists then
      if !e.fetchOk then (false, eff0 ++ [Effect.netFetch])
      else extractStep e (eff0 ++ [Effect.netFetch])
    else extractStep e eff0

/-! ## Main pipeline -/

def scheduleCacheKeyOf (e : Env) : String :=
  "atm-tram-schedule:cache:" ++
    e.hashHex (cacheInput e.line e.stopName e.scheduleType)

/-- The six stdout lines printed on success (source lines 371–377 and
451–456). -/
def stdoutBlock (e : Env) (textPath cacheStatus : String) : List String :=
  ["LINE: " ++ e.line,
   "STOP: " ++ (if e.stopName = "" then "all" else e.stopName),
   "TYPE: " ++ e.scheduleType,
   "TEXT: " ++ textPath,
   "SOURCE: GTFS",
   "CACHE: " ++ cacheStatus]

/-- The remediation listing printed on RouteNotFound (source lines
393–396): routes sorted by id, filtered to tram type "0". -/
def sortedRoutesListing (routes : List (String × RouteData)) : List String :=
  ((routes.insertionSort fstLe).filter
    (fun p => decide (p.2.type = "0"))).map
    (fun p => "  " ++ p.2.short_name ++ ": " ++ p.2.long_name)

/-- Outcome of one invocation: exit code, effect trace, stdout lines, the
stderr lines main itself logs (the progress logs inside `download_gtfs`
and `get_stop_times` are not modelled), and, when the query ran, the
stop-times aggregation. -/
structure MainResult where
  exitCode : Nat
  effects : List Effect
  stdoutLines : List String
  errLines : List String
  agg : Option (List (String × List (String × String)))
deriving DecidableEq, Repr

/-- Source lines 407–456: from the stop-name filtering onwards, after a
route `routeId` and a non-empty trip set `trips` have been found. `eff3`
and `errQ` are the effects and stderr lines accumulated so far. -/
def mainAggregate (e : Env) (trips : List (String × String))
    (eff3 : List Effect) (errQ : List String) : MainResult :=
  let stops := loadStops e.stopsRows
  let matchingStops : Option (List String) :=
    if e.stopName = "" then none
    else some (findStopsByName e.stopName stops)
  let warn : List String :=
    match matchingStops with
    | some [] =>
      ["Warning: No stops found matching '" ++ e.stopName ++ "'",
       "Showing all stops for this line instead"]
    | _ => []
  let agg := getStopTimes trips matchingStops e.stopTimesRows
  let eff4 := eff3 ++ [Effect.readTable "stop_times.txt"]
  let outDir := DATA_DIR ++ "/" ++ e.datePath
  let textPath :=
    outDir ++ "/" ++ e.tsFileStr ++ "-" ++ slugFor e.line e.stopName ++ ".txt"
  { exitCode := 0,
    effects := eff4 ++
      [Effect.mkdirFs outDir, Effect.fileWrite textPath,
       Effect.cacheWrite (scheduleCacheKeyOf e)],
    stdoutLines := stdoutBlock e textPath "miss",
    errLines := errQ ++ warn,
    agg := some agg }

/-- Source lines 383–456: the query proper, once the dataset is on disk.
`eff1` is the effect trace accumulated before the table loads. -/
def mainQuery (e : Env) (servicePattern : String) (eff1 : List Effect) :
    MainResult :=
  let errQ := ["Querying GTFS data for line " ++ e.line ++ "..."]
  let routes := loadRoutes e.routesRows
  let eff2 :=
    eff1 ++ [Effect.readTable "routes.txt", Effect.readTable "stops.txt"]
  match findRouteId e.line routes with
  | none =>
    { exitCode := 1, effects := eff2, stdoutLines := [],
      errLines := errQ ++
        ["Error: Line " ++ e.line ++ " not found in GTFS data",
         "\nAvailable tram lines (route_type=0):"] ++
        sortedRoutesListing routes,
      agg := none }
  | some routeId =>
    let trips := findTrips routeId servicePattern 50 e.tripsRows
    let eff3 := eff2 ++ [Effect.readTable "trips.txt"]
    if trips.isEmpty then
      { exitCode := 1, effects := eff3, stdoutLines := [],
        errLines := errQ ++
          ["No trips found for line " ++ e.line ++ " on " ++ e.scheduleType],
        agg := none }
    else mainAggregate e trips eff3 errQ

/-- Source lines 379–456: the cache-miss path, starting at the
`download_gtfs` call. -/
def mainMiss (e : Env) (servicePattern : String) : MainResult :=
  let dl := downloadGtfs e
  let eff1 := Effect.cacheRead (scheduleCacheKeyOf e) :: dl.2
  if !dl.1 then
    { exitCode := 1, effects := eff1, stdoutLines := [], errLines := [],
      agg := none }
  else mainQuery e servicePattern eff1

/-- `main` (source lines 344–456), from argument validation onwards, as a
pure function of the environment. -/
def mainModel (e : Env) : MainResult :=
  match SERVICE_PATTERNS.lookup e.scheduleType with
  | none =>
    { exitCode := 1, effects := [], stdoutLines := [],
      errLines :=
        ["Error: schedule-type must be one of: weekday, saturday, sunday"],
      agg := none }
  | some servicePattern =>
    let cacheKey := scheduleCacheKeyOf e
    let entry := e.cache.lookup cacheKey
    match checkCache e.parseJson e.parseIso e.now e.fileExists entry
        SCHEDULE_CACHE_TTL with
    | some data =>
      { exitCode := 0, effects := [Effect.cacheRead cacheKey],
        stdoutLines := stdoutBlock e (data.text_path.getD "") "hit",
        errLines := [], agg := none }
    | none => mainMiss e servicePattern

/-! ## Concrete sample environments, used to evaluate the model -/

def stubParseJson : String → Option CacheData := fun _ => none

def stubParseIso : String → Option Int := fun _ => none

def stubHash : String → String := fun _ => "deadbeef"

/-- A small but complete world: one tram route `T9`, one stop `S1` named
"Piazza", one weekday trip with one departure at it, an empty cache store,
all dataset files on disk, the archive present, extraction succeeding.
The stop filter "Duomo" matches no stop name. -/
def sampleEnv : Env where
  line := "9"
  stopName := "Duomo"
  scheduleType := "weekday"
  cache := []
  parseJson := stubParseJson
  parseIso := stubParseIso
  now := 0
  fileExists := fun _ => false
  routesExists := true
  stopsExists := true
  tripsExists := true
  stopTimesExists := true
  zipExists := true
  fetchOk := true
  extractOk := true
  hashHex := stubHash
  nowIso := "2025-10-12T00:00:00Z"
  datePath := "2025/10/12"
  tsFileStr := "20251012-000000"
  routesRows := [⟨"T9", "9", "Castello - Centrale", "0"⟩]
  stopsRows := [⟨"S1", "Piazza", "", ""⟩]
  tripsRows := [⟨"trip1", "T9", "x LV y", some "Centro"⟩]
  stopTimesRows := [⟨"trip1", "S1", "08:00:00"⟩]

/-- `sampleEnv` with a fresh dataset timestamp recorded in the cache
store and a parser that accepts it as one second old. -/
def freshEnv : Env :=
  { sampleEnv with
    cache := [(gtfsCacheKey, "2025-10-12T00:00:00Z")],
    parseIso := fun _ => some 0,
    now := 1 }

/-! # Theorems -/

/-! ## Helper lemmas on the fingerprint encoding -/

theorem cacheInput_data (l s t : String) :
    (cacheInput l s t).data = l.data ++ ':' :: (s.data ++ ':' :: t.data) := by
  simp [cacheInput, String.data_append]

/-- Splitting at a separator absent from both prefixes is unambiguous. -/
theorem append_sep_inj {α : Type} {sep : α} :
    ∀ {a b x y : List α}, sep ∉ a → sep ∉ b →
      a ++ sep :: x = b ++ sep :: y → a = b ∧ x = y := by
  intro a
  induction a with
  | nil =>
    intro b x y _ hb h
    cases b with
    | nil => simpa using h
    | cons c b' =>
      simp only [List.nil_append, List.cons_append, List.cons.injEq] at h
      exact absurd (h.1 ▸ List.mem_cons_self c b') hb
  | cons c a' ih =>
    intro b x y ha hb h
    cases b with
    | nil =>
      simp only [List.cons_append, List.nil_append, List.cons.injEq] at h
      exact absurd (h.1 ▸ List.mem_cons_self c a') ha
    | cons d b' =>
      simp only [List.cons_append, List.cons.injEq] at h
      have ha' : sep ∉ a' := fun hm => ha (List.mem_cons_of_mem c hm)
      have hb' : sep ∉ b' := fun hm => hb (List.mem_cons_of_mem d hm)
      obtain ⟨h1, h2⟩ := ih ha' hb' h.2
      exact ⟨by rw [h.1, h1], h2⟩

/-- Splitting at a separator absent from both suffixes is unambiguous. -/
theorem append_sep_last_inj {α : Type} {sep : α} {a b x y : List α}
    (hx : sep ∉ x) (hy : sep ∉ y)
    (h : a ++ sep :: x = b ++ sep :: y) : a = b ∧ x = y := by
  have hrev : x.reverse ++ sep :: a.reverse = y.reverse ++ sep :: b.reverse := by
    have := congrArg List.reverse h
    simpa [List.reverse_append] using this
  have hx' : sep ∉ x.reverse := by simpa using hx
  have hy' : sep ∉ y.reverse := by simpa using hy
  obtain ⟨h1, h2⟩ := append_sep_inj hx' hy' hrev
  exact ⟨List.reverse_injective h2, List.reverse_injective h1⟩

theorem validScheduleTypes_colon_free {t : String}
    (h : t ∈ validScheduleTypes) : ':' ∉ t.data := by
  fin_cases h <;> decide

/-- With a colon-free line and a valid (hence colon-free) schedule type, the
pre-hash encoding determines all three fields. -/
theorem cacheInput_inj {l₁ s₁ t₁ l₂ s₂ t₂ : String}
    (hl₁ : ':' ∉ l₁.data) (hl₂ : ':' ∉ l₂.data)
    (ht₁ : t₁ ∈ validScheduleTypes) (ht₂ : t₂ ∈ validScheduleTypes)
    (h : cacheInput l₁ s₁ t₁ = cacheInput l₂ s₂ t₂) :
    l₁ = l₂ ∧ s₁ = s₂ ∧ t₁ = t₂ := by
  have hd := congrArg String.data h
  rw [cacheInput_data, cacheInput_data] at hd
  obtain ⟨hline, hrest⟩ := append_sep_inj hl₁ hl₂ hd
  obtain ⟨hstop, hsched⟩ :=
    append_sep_last_inj (validScheduleTypes_colon_free ht₁)
      (validScheduleTypes_colon_free ht₂) hrest
  exact ⟨String.ext hline, String.ext hstop, String.ext hsched⟩

theorem lookup_service_patterns_eq_none {t : String}
    (h : t ∉ validScheduleTypes) : SERVICE_PATTERNS.lookup t = none := by
  simp only [validScheduleTypes, SERVICE_PATTERNS, List.map, List.mem_cons,
    List.not_mem_nil, or_false, not_or] at h
  have h1 : (t == "weekday") = false := beq_eq_false_iff_ne.mpr h.1
  have h2 : (t == "saturday") = false := beq_eq_false_iff_ne.mpr h.2.1
  have h3 : (t == "sunday") = false := beq_eq_false_iff_ne.mpr h.2.2
  simp [SERVICE_PATTERNS, List.lookup, h1, h2, h3]

/-! ## C2: fingerprint encoding -/

/-- **C2, counterexample**: two distinct valid query triples share the
pre-hash encoding (hence the same SHA-256 fingerprint), so the claimed
injectivity over all string-valued fields fails. -/
theorem c2_fingerprint_collision :
    cacheInput "a:b" "" "weekday" = cacheInput "a" "b:" "weekday" ∧
    (("a:b", "", "weekday") : String × String × String) ≠
      ("a", "b:", "weekday") ∧
    "weekday" ∈ validScheduleTypes := by
  decide

/-- **C2, amended**: the pre-hash encoding of a query triple is injective
when the line contains no colon (and the schedule type is one of the three
valid values, which are colon-free); moreover changing any single field
while the other two stay fixed always changes the encoding. -/
theorem c2_fingerprint_encoding_amended :
    (∀ l₁ s₁ t₁ l₂ s₂ t₂ : String,
        ':' ∉ l₁.data → ':' ∉ l₂.data →
        t₁ ∈ validScheduleTypes → t₂ ∈ validScheduleTypes →
        (cacheInput l₁ s₁ t₁ = cacheInput l₂ s₂ t₂ ↔
          (l₁ = l₂ ∧ s₁ = s₂ ∧ t₁ = t₂))) ∧
    (∀ l l' s s' t t' : String,
        (cacheInput l s t = cacheInput l' s t → l = l') ∧
        (cacheInput l s t = cacheInput l s' t → s = s') ∧
        (cacheInput l s t = cacheInput l s t' → t = t')) := by
  constructor
  · intro l₁ s₁ t₁ l₂ s₂ t₂ hl₁ hl₂ ht₁ ht₂
    constructor
    · exact cacheInput_inj hl₁ hl₂ ht₁ ht₂
    · rintro ⟨rfl, rfl, rfl⟩
      rfl
  · intro l l' s s' t t'
    refine ⟨fun h => ?_, fun h => ?_, fun h => ?_⟩
    · have hd := congrArg String.data h
      rw [cacheInput_data, cacheInput_data] at hd
      exact String.ext (List.append_cancel_right hd)
    · have hd := congrArg String.data h
      rw [cacheInput_data, cacheInput_data] at hd
      have h1 := (List.cons.inj (List.append_cancel_left hd)).2
      exact String.ext (List.append_cancel_right h1)
    · have hd := congrArg String.data h
      rw [cacheInput_data, cacheInput_data] at hd
      have h1 := (List.cons.inj (List.append_cancel_left hd)).2
      have h2 := (List.cons.inj (List.append_cancel_left h1)).2
      exact String.ext h2

/-- Witness for the amended C2 statement at concrete inputs. -/
theorem c2_fingerprint_encoding_amended_witness :
    cacheInput "9" "Duomo" "weekday" = cacheInput "9" "Duomo" "weekday" ↔
      (("9" : String) = "9" ∧ ("Duomo" : String) = "Duomo" ∧
        ("weekday" : String) = "weekday") :=
  c2_fingerprint_encoding_amended.1 "9" "Duomo" "weekday" "9" "Duomo" "weekday"
    (by decide) (by decide) (by decide) (by decide)

/-! ## C3: report-file slug -/

/-- **C3, counterexample**: on a 31-character stop name with a space among
the first 30 characters, the slug fragment the code produces differs from
the claimed lowercase–strip–truncate order. -/
theorem c3_slug_order_counterexample :
    slugFor "9" "aaaaaaaaaaaaaaaaaaaaaaaaaaaaa b" =
      "line" ++ "9" ++ "-" ++ pySlugFragment "aaaaaaaaaaaaaaaaaaaaaaaaaaaaa b" ∧
    pySlugFragment "aaaaaaaaaaaaaaaaaaaaaaaaaaaaa b" =
      "aaaaaaaaaaaaaaaaaaaaaaaaaaaaa" ∧
    claimedSlugFragment "aaaaaaaaaaaaaaaaaaaaaaaaaaaaa b" =
      "aaaaaaaaaaaaaaaaaaaaaaaaaaaaab" ∧
    pySlugFragment "aaaaaaaaaaaaaaaaaaaaaaaaaaaaa b" ≠
      claimedSlugFragment "aaaaaaaaaaaaaaaaaaaaaaaaaaaaa b" := by
  decide

/-- **C3, amended**: for every non-empty stop name, the slug appended after
"line&lt;line&gt;-" is the stop name lowercased, truncated to 30 characters,
and then with spaces removed (truncate before strip); consequently it is at
most 30 characters long and space-free. -/
theorem c3_slug_amended (line stop : String) (h : stop ≠ "") :
    slugFor line stop = "line" ++ line ++ "-" ++ amendedSlugFragment stop ∧
    (amendedSlugFragment stop).length ≤ 30 ∧
    ' ' ∉ (amendedSlugFragment stop).data := by
  refine ⟨by simp [slugFor, h, pySlugFragment, amendedSlugFragment], ?_, ?_⟩
  · show (((stop.data.map Char.toLower).take 30).filter
      (fun c => c ≠ ' ')).length ≤ 30
    exact le_trans (List.length_filter_le _ _) (by simp)
  · intro hmem
    simp only [amendedSlugFragment, List.mem_filter, decide_eq_true_eq] at hmem
    exact hmem.2 rfl

/-- Witness for the amended C3 statement at a concrete stop name. -/
theorem c3_slug_amended_witness :
    slugFor "9" "Via Torino" =
      "line" ++ "9" ++ "-" ++ amendedSlugFragment "Via Torino" ∧
    (amendedSlugFragment "Via Torino").length ≤ 30 ∧
    ' ' ∉ (amendedSlugFragment "Via Torino").data :=
  c3_slug_amended "9" "Via Torino" (by decide)

/-! ## C8: schedule-type validation -/

/-- **C8**: an invalid schedule type fails with exit code 1 before any
dataset access, with an empty effect trace: no file writes, no cache-store
reads or writes. -/
theorem c8_invalid_schedule_type_no_effects (e : Env)
    (h : e.scheduleType ∉ validScheduleTypes) :
    mainModel e =
      { exitCode := 1, effects := [], stdoutLines := [],
        errLines :=
          ["Error: schedule-type must be one of: weekday, saturday, sunday"],
        agg := none } := by
  have hl := lookup_service_patterns_eq_none h
  simp [mainModel, hl]

/-- Witness for C8 at the schedule type "tuesday". -/
theorem c8_invalid_schedule_type_no_effects_witness :
    mainModel { sampleEnv with scheduleType := "tuesday" } =
      { exitCode := 1, effects := [], stdoutLines := [],
        errLines :=
          ["Error: schedule-type must be one of: weekday, saturday, sunday"],
        agg := none } :=
  c8_invalid_schedule_type_no_effects _ (by decide)

/-! ## C1: zero-match stop filter -/

/-- **C1, the code violates the claim**: with a stop filter matching zero
stops, a warning is emitted and the exit code is 0 as claimed, but the
aggregation is empty — not identical to the unfiltered aggregation — because
`main` passes the empty match list (not `None`) to `get_stop_times`, whose
membership test then excludes every row, contradicting the code's own log
line "Showing all stops for this line instead". -/
theorem c1_zero_match_filter_bug :
    (mainModel sampleEnv).exitCode = 0 ∧
    "Warning: No stops found matching 'Duomo'" ∈ (mainModel sampleEnv).errLines ∧
    "Showing all stops for this line instead" ∈ (mainModel sampleEnv).errLines ∧
    (mainModel sampleEnv).agg = some [] ∧
    (mainModel { sampleEnv with stopName := "" }).agg =
      some [("S1", [("08:00:00", "Centro")])] ∧
    (mainModel sampleEnv).agg ≠ (mainModel { sampleEnv with stopName := "" }).agg := by
  decide

/-! ## C4: dataset freshness short-circuit -/

/-- **C4**: when all four table files exist, a (non-empty) freshness
timestamp is recorded, it parses, and its age is strictly below the
24-hour TTL, `download_gtfs` returns success having performed only the
timestamp read: no fetch, no extraction, no directory creation, no file
write, no cache-store write. -/
theorem c4_fresh_dataset_no_refetch (e : Env) (ts : String) (t : Int)
    (hroutes : e.routesExists = true) (hstops : e.stopsExists = true)
    (htrips : e.tripsExists = true) (hstopTimes : e.stopTimesExists = true)
    (hts : e.cache.lookup gtfsCacheKey = some ts) (hne : ts ≠ "")
    (hparse : e.parseIso ts = some t)
    (hage : e.now - t < GTFS_CACHE_TTL) :
    downloadGtfs e = (true, [Effect.cacheRead gtfsCacheKey]) ∧
    Effect.netFetch ∉ (downloadGtfs e).2 ∧
    Effect.extractZip ∉ (downloadGtfs e).2 ∧
    (∀ k, Effect.cacheWrite k ∉ (downloadGtfs e).2) ∧
    (∀ p, Effect.mkdirFs p ∉ (downloadGtfs e).2) ∧
    (∀ p, Effect.fileWrite p ∉ (downloadGtfs e).2) := by
  have hfresh : datasetFresh e = true := by
    simp [datasetFresh, hroutes, hstops, htrips, hstopTimes, hts, hparse,
      hage, hne, bne_iff_ne]
  have heq : downloadGtfs e = (true, [Effect.cacheRead gtfsCacheKey]) := by
    simp [downloadGtfs, hfresh]
  refine ⟨heq, ?_, ?_, ?_, ?_, ?_⟩ <;> simp [heq]

/-- Witness for C4 at a concrete fresh environment. -/
theorem c4_fresh_dataset_no_refetch_witness :
    downloadGtfs freshEnv = (true, [Effect.cacheRead gtfsCacheKey]) ∧
    Effect.netFetch ∉ (downloadGtfs freshEnv).2 ∧
    Effect.extractZip ∉ (downloadGtfs freshEnv).2 ∧
    (∀ k, Effect.cacheWrite k ∉ (downloadGtfs freshEnv).2) ∧
    (∀ p, Effect.mkdirFs p ∉ (downloadGtfs freshEnv).2) ∧
    (∀ p, Effect.fileWrite p ∉ (downloadGtfs freshEnv).2) :=
  c4_fresh_dataset_no_refetch freshEnv "2025-10-12T00:00:00Z" 0
    rfl rfl rfl rfl rfl (by decide) rfl (by decide)

/-! ## C9: existing archive is never re-fetched -/

/-- **C9**: whenever the GTFS archive is already on disk, `download_gtfs`
performs no network fetch; a fetch happens only when the archive is
missing; and on the stale path with the archive present and extraction
succeeding, it re-extracts the existing archive and records a fresh
timestamp. -/
theorem c9_existing_archive_no_fetch (e : Env) :
    (e.zipExists = true → Effect.netFetch ∉ (downloadGtfs e).2) ∧
    (Effect.netFetch ∈ (downloadGtfs e).2 → e.zipExists = false) ∧
    (e.zipExists = true → datasetFresh e = false → e.extractOk = true →
      downloadGtfs e =
        (true, [Effect.cacheRead gtfsCacheKey, Effect.mkdirFs GTFS_DIR,
          Effect.extractZip, Effect.cacheWrite gtfsCacheKey])) := by
  cases h1 : datasetFresh e <;> cases h2 : e.zipExists <;>
    cases h3 : e.fetchOk <;> cases h4 : e.extractOk <;>
      simp [downloadGtfs, extractStep, h1, h2, h3, h4]

/-- Witness for C9: `sampleEnv` has the archive on disk and an empty cache
store, so the stale path re-extracts without fetching. -/
theorem c9_existing_archive_no_fetch_witness :
    downloadGtfs sampleEnv =
      (true, [Effect.cacheRead gtfsCacheKey, Effect.mkdirFs GTFS_DIR,
        Effect.extractZip, Effect.cacheWrite gtfsCacheKey]) :=
  (c9_existing_archive_no_fetch sampleEnv).2.2 rfl (by decide) rfl

/-! ## C10: query-cache lookup characterization -/

/-- **C10**: `check_cache` is total by construction (every fallible library
call is `Option`-valued and every failure branch yields `none`); it reports
a hit only when the entry is present and non-empty, parses, carries a
well-formed timestamp whose age is strictly below the TTL, and names a
non-empty artifact path that exists on disk; each listed failure mode —
absent entry, unparseable JSON, ill-formed timestamp, expired age, missing
artifact — yields a miss. (`main` calls it with the 1-hour
`SCHEDULE_CACHE_TTL`.) -/
theorem c10_check_cache_characterization
    (pj : String → Option CacheData) (pi : String → Option Int)
    (now : Int) (fe : String → Bool) (entry : Option String) (ttl : Int) :
    (∀ d, checkCache pj pi now fe entry ttl = some d →
      ∃ s, entry = some s ∧ s ≠ "" ∧ pj s = some d ∧
        ∃ tsStr t p, d.timestamp = some tsStr ∧ pi tsStr = some t ∧
          now - t < ttl ∧ d.text_path = some p ∧ p ≠ "" ∧ fe p = true) ∧
    (entry = none → checkCache pj pi now fe entry ttl = none) ∧
    (∀ s, entry = some s → pj s = none →
      checkCache pj pi now fe entry ttl = none) ∧
    (∀ s dd, entry = some s → pj s = some dd →
      (dd.timestamp = none ∨
        ∃ tsStr, dd.timestamp = some tsStr ∧ pi tsStr = none) →
      checkCache pj pi now fe entry ttl = none) ∧
    (∀ s dd tsStr t, entry = some s → pj s = some dd →
      dd.timestamp = some tsStr → pi tsStr = some t → ttl ≤ now - t →
      checkCache pj pi now fe entry ttl = none) ∧
    (∀ s dd, entry = some s → pj s = some dd →
      (dd.text_path = none ∨ ∃ p, dd.text_path = some p ∧ fe p = false) →
      checkCache pj pi now fe entry ttl = none) := by
  refine ⟨?_, ?_, ?_, ?_, ?_, ?_⟩
  · intro d h
    cases entry with
    | none => exact absurd h (by simp [checkCache])
    | some s =>
      by_cases hs : s = ""
      · simp [checkCache, hs] at h
      · cases hpj : pj s with
        | none => simp [checkCache, hs, hpj] at h
        | some dd =>
          cases hts : dd.timestamp with
          | none => simp [checkCache, hs, hpj, hts] at h
          | some tsStr =>
            cases hpi : pi tsStr with
            | none => simp [checkCache, hs, hpj, hts, hpi] at h
            | some t =>
              by_cases hage : now - t < ttl
              · cases htp : dd.text_path with
                | none => simp [checkCache, hs, hpj, hts, hpi, hage, htp] at h
                | some p =>
                  by_cases hp : p ≠ "" ∧ fe p = true
                  · have hd : dd = d := by
                      simpa [checkCache, hs, hpj, hts, hpi, hage, htp,
                        hp.1, hp.2] using h
                    subst hd
                    exact ⟨s, rfl, hs, hpj, tsStr, t, p, hts, hpi, hage,
                      htp, hp.1, hp.2⟩
                  · simp [checkCache, hs, hpj, hts, hpi, hage, htp, hp] at h
              · simp [checkCache, hs, hpj, hts, hpi, hage] at h
  · intro h
    subst h
    simp [checkCache]
  · intro s hentry hpj
    subst hentry
    by_cases hs : s = "" <;> simp [checkCache, hs, hpj]
  · intro s dd hentry hpj hbad
    subst hentry
    by_cases hs : s = ""
    · simp [checkCache, hs]
    · rcases hbad with hts | ⟨tsStr, hts, hpi⟩
      · simp [checkCache, hs, hpj, hts]
      · simp [checkCache, hs, hpj, hts, hpi]
  · intro s dd tsStr t hentry hpj hts hpi hage
    subst hentry
    have hnl : ¬ (now - t < ttl) := not_lt.mpr hage
    by_cases hs : s = "" <;> simp [checkCache, hs, hpj, hts, hpi, hnl]
  · intro s dd hentry hpj hbad
    subst hentry
    by_cases hs : s = ""
    · simp [checkCache, hs]
    · cases hts : dd.timestamp with
      | none => simp [checkCache, hs, hpj, hts]
      | some tsStr =>
        cases hpi : pi tsStr with
        | none => simp [checkCache, hs, hpj, hts, hpi]
        | some t =>
          by_cases hage : now - t < ttl
          · rcases hbad with htp | ⟨p, htp, hfe⟩
            · simp [checkCache, hs, hpj, hts, hpi, hage, htp]
            · simp [checkCache, hs, hpj, hts, hpi, hage, htp, hfe]
          · simp [checkCache, hs, hpj, hts, hpi, hage]

/-- Witness for C10: an entry that fails to parse is a miss. -/
theorem c10_check_cache_characterization_witness :
    checkCache stubParseJson stubParseIso 0 (fun _ => false)
      (some "garbage") 3600 = none :=
  (c10_check_cache_characterization stubParseJson stubParseIso 0
    (fun _ => false) (some "garbage") 3600).2.2.1 "garbage" rfl rfl

/-! ## C7: aggregation has no duplicate pairs and sorted direction groups -/

/-- **C7**: in every stop's aggregated list the (time, headsign) pairs are
pairwise distinct, and after the formatter groups by headsign the departure
times within each direction group are non-decreasing in lexicographic
string order. -/
theorem c7_agg_nodup_and_sorted (tripInfo : List (String × String))
    (stopIds : Option (List String)) (rows : List StopTimeRow)
    (sid : String) (lst : List (String × String))
    (hmem : (sid, lst) ∈ getStopTimes tripInfo stopIds rows) :
    lst.Nodup ∧
    ∀ hs, (directionTimes hs lst).Pairwise
      (fun a b => charListLe a.data b.data = true) := by
  obtain ⟨q, _, heq⟩ := List.mem_map.mp hmem
  have hlst : lst = (q.2.dedup).insertionSort fstLe :=
    ((Prod.mk.injEq _ _ _ _).mp heq).2.symm
  constructor
  · rw [hlst]
    exact ((List.perm_insertionSort fstLe _).nodup_iff).mpr
      (List.nodup_dedup _)
  · intro hs
    have hsorted : lst.Pairwise fstLe := by
      rw [hlst]
      exact List.sorted_insertionSort fstLe _
    have hfilter : (lst.filter (fun p => decide (p.2 = hs))).Pairwise fstLe :=
      hsorted.filter _
    rw [directionTimes, List.pairwise_map]
    exact hfilter

/-- Witness for C7 on a concrete aggregation with a duplicate input pair
and out-of-order input times. -/
theorem c7_agg_nodup_and_sorted_witness :
    ([("07:00:00", "X"), ("08:00:00", "X")] : List (String × String)).Nodup ∧
    ∀ hs, (directionTimes hs [("07:00:00", "X"), ("08:00:00", "X")]).Pairwise
      (fun a b => charListLe a.data b.data = true) :=
  c7_agg_nodup_and_sorted [("t1", "X")] none
    [⟨"t1", "S1", "08:00:00"⟩, ⟨"t1", "S1", "07:00:00"⟩,
     ⟨"t1", "S1", "08:00:00"⟩]
    "S1" [("07:00:00", "X"), ("08:00:00", "X")] (by decide)

/-! ## C5: trip selection -/

/-- The `find_trips` loop with distinct trip ids (the table invariant)
collects exactly the first matches: the accumulator followed by the
remaining matching rows, in order, up to the remaining capacity. -/
theorem findTripsGo_eq (routeId pat : String) (limit : Nat) :
    ∀ (rows : List TripRow) (acc : List (String × String)),
      acc.length < limit →
      (rows.map TripRow.trip_id).Nodup →
      (∀ kv ∈ acc, kv.1 ∉ rows.map TripRow.trip_id) →
      findTripsGo routeId pat limit rows acc =
        acc ++ (((rows.filter (tripMatch routeId pat)).take
          (limit - acc.length)).map tripEntry)
  | [], acc, _, _, _ => by simp [findTripsGo]
  | r :: rs, acc, hlen, hnodup, hdisj => by
    simp only [List.map_cons] at hnodup
    obtain ⟨hhead, htail⟩ := List.nodup_cons.mp hnodup
    by_cases hp : r.route_id = routeId ∧ pat.data <:+: r.service_id.data
    · have hnotin : acc.any (fun p => p.1 = r.trip_id) = false := by
        rw [List.any_eq_false]
        intro kv hkv
        have := hdisj kv hkv
        simp only [List.map_cons, List.mem_cons, not_or] at this
        simpa using this.1
      have hupsert :
          upsert acc r.trip_id (r.trip_headsign.getD "Unknown") =
            acc ++ [tripEntry r] := by
        simp [upsert, hnotin, tripEntry]
      rw [findTripsGo]
      rw [if_pos hp]
      simp only [hupsert]
      have hfilter : (r :: rs).filter (tripMatch routeId pat) =
          r :: rs.filter (tripMatch routeId pat) := by
        simp [List.filter_cons, tripMatch, hp]
      by_cases hstop : limit ≤ (acc ++ [tripEntry r]).length
      · rw [if_pos hstop]
        have h1 : limit - acc.length = 1 := by
          simp only [List.length_append, List.length_singleton] at hstop
          omega
        rw [hfilter, h1]
        simp
      · rw [if_neg hstop]
        have hlen' : (acc ++ [tripEntry r]).length < limit := by
          simp only [List.length_append, List.length_singleton] at hstop ⊢
          omega
        have hdisj' : ∀ kv ∈ acc ++ [tripEntry r],
            kv.1 ∉ rs.map TripRow.trip_id := by
          intro kv hkv
          rcases List.mem_append.mp hkv with h | h
          · intro hm
            exact hdisj kv h (by simp [hm])
          · simp only [List.mem_singleton] at h
            subst h
            simpa [tripEntry] using hhead
        rw [findTripsGo_eq routeId pat limit rs (acc ++ [tripEntry r])
          hlen' htail hdisj']
        have hk : limit - acc.length =
            (limit - (acc ++ [tripEntry r]).length) + 1 := by
          simp only [List.length_append, List.length_singleton] at hstop ⊢
          omega
        rw [hfilter, hk, List.take_succ_cons, List.map_cons]
        simp
    · have hfilter : (r :: rs).filter (tripMatch routeId pat) =
          rs.filter (tripMatch routeId pat) := by
        simp [List.filter_cons, tripMatch, hp]
      have hdisj' : ∀ kv ∈ acc, kv.1 ∉ rs.map TripRow.trip_id := by
        intro kv hkv hm
        exact hdisj kv hkv (by simp [hm])
      rw [findTripsGo, if_neg hp,
        findTripsGo_eq routeId pat limit rs acc hlen htail hdisj', hfilter]

/-- **C5**: with distinct trip ids (the table invariant), `find_trips`
returns exactly the matching rows (route id equal, pattern a substring of
the service id) in table order capped at 50 entries, it is empty iff no
row matches, its size never exceeds 50; and on the main path an empty trip
set exits with code 1 and the schedule-type-specific "No trips found"
message. -/
theorem c5_find_trips_characterization
    (routeId pat : String) (rows : List TripRow)
    (hnodup : (rows.map TripRow.trip_id).Nodup)
    (e : Env) (pat' rid : String)
    (hsched : SERVICE_PATTERNS.lookup e.scheduleType = some pat')
    (hmiss : checkCache e.parseJson e.parseIso e.now e.fileExists
      (e.cache.lookup (scheduleCacheKeyOf e)) SCHEDULE_CACHE_TTL = none)
    (hdl : (downloadGtfs e).1 = true)
    (hroute : findRouteId e.line (loadRoutes e.routesRows) = some rid)
    (hempty : findTrips rid pat' 50 e.tripsRows = []) :
    findTrips routeId pat 50 rows =
      ((rows.filter (tripMatch routeId pat)).take 50).map tripEntry ∧
    (findTrips routeId pat 50 rows = [] ↔
      rows.filter (tripMatch routeId pat) = []) ∧
    (findTrips routeId pat 50 rows).length ≤ 50 ∧
    (mainModel e).exitCode = 1 ∧
    ("No trips found for line " ++ e.line ++ " on " ++ e.scheduleType) ∈
      (mainModel e).errLines := by
  have heq : findTrips routeId pat 50 rows =
      ((rows.filter (tripMatch routeId pat)).take 50).map tripEntry := by
    have h := findTripsGo_eq routeId pat 50 rows []
      (by simp only [List.length_nil]; omega) hnodup (by simp)
    simpa [findTrips] using h
  have hmm : mainModel e = mainMiss e pat' := by
    simp [mainModel, hsched, hmiss]
  have hmq : mainMiss e pat' =
      mainQuery e pat'
        (Effect.cacheRead (scheduleCacheKeyOf e) :: (downloadGtfs e).2) := by
    simp [mainMiss, hdl]
  refine ⟨heq, ?_, ?_, ?_, ?_⟩
  · rw [heq]
    simp
  · rw [heq]
    rw [List.length_map, List.length_take]
    exact Nat.min_le_left _ _
  · rw [hmm, hmq]
    simp [mainQuery, hroute, hempty]
  · rw [hmm, hmq]
    simp [mainQuery, hroute, hempty]

/-- Witness for C5 at `sampleEnv` with schedule type "saturday": the sole
trip's service id contains " LV " but not " SAB ", so the trip set is
empty and the run fails with the NoTripsFound message. -/
theorem c5_find_trips_characterization_witness :
    findTrips "T9" " LV " 50 sampleEnv.tripsRows =
      ((sampleEnv.tripsRows.filter (tripMatch "T9" " LV ")).take 50).map
        tripEntry ∧
    (findTrips "T9" " LV " 50 sampleEnv.tripsRows = [] ↔
      sampleEnv.tripsRows.filter (tripMatch "T9" " LV ") = []) ∧
    (findTrips "T9" " LV " 50 sampleEnv.tripsRows).length ≤ 50 ∧
    (mainModel { sampleEnv with scheduleType := "saturday" }).exitCode = 1 ∧
    ("No trips found for line " ++
        { sampleEnv with scheduleType := "saturday" }.line ++ " on " ++
        { sampleEnv with scheduleType := "saturday" }.scheduleType) ∈
      (mainModel { sampleEnv with scheduleType := "saturday" }).errLines :=
  c5_find_trips_characterization "T9" " LV " sampleEnv.tripsRows (by decide)
    { sampleEnv with scheduleType := "saturday" } " SAB " "T9"
    rfl rfl (by decide) (by decide) (by decide)

/-! ## C6: route resolution -/

/-- **C6**: `find_route_id` returns "T"+line when that id is a key of the
routes table; otherwise the first route in insertion order whose short
name equals the line and whose type is "0"; otherwise nothing — and then
`main` exits with code 1, reports the line as not found, and lists every
type-"0" route as remediation. -/
theorem c6_route_resolution
    (line : String) (routes : List (String × RouteData))
    (e : Env) (pat2 : String)
    (hsched : SERVICE_PATTERNS.lookup e.scheduleType = some pat2)
    (hmiss : checkCache e.parseJson e.parseIso e.now e.fileExists
      (e.cache.lookup (scheduleCacheKeyOf e)) SCHEDULE_CACHE_TTL = none)
    (hdl : (downloadGtfs e).1 = true)
    (hnone : findRouteId e.line (loadRoutes e.routesRows) = none) :
    ((routes.lookup ("T" ++ line)).isSome = true →
      findRouteId line routes = some ("T" ++ line)) ∧
    ((routes.lookup ("T" ++ line)).isSome = false →
      ∀ rid, findRouteId line routes = some rid →
        ∃ d pre post, routes = pre ++ (rid, d) :: post ∧
          d.short_name = line ∧ d.type = "0" ∧
          ∀ q ∈ pre, ¬ (q.2.short_name = line ∧ q.2.type = "0")) ∧
    ((routes.lookup ("T" ++ line)).isSome = false →
      (∀ q ∈ routes, ¬ (q.2.short_name = line ∧ q.2.type = "0")) →
      findRouteId line routes = none) ∧
    (mainModel e).exitCode = 1 ∧
    ("Error: Line " ++ e.line ++ " not found in GTFS data") ∈
      (mainModel e).errLines ∧
    (∀ rid d, (rid, d) ∈ loadRoutes e.routesRows → d.type = "0" →
      ("  " ++ d.short_name ++ ": " ++ d.long_name) ∈
        (mainModel e).errLines) := by
  have hmm : mainModel e = mainMiss e pat2 := by
    simp [mainModel, hsched, hmiss]
  have hmq : mainMiss e pat2 =
      mainQuery e pat2
        (Effect.cacheRead (scheduleCacheKeyOf e) :: (downloadGtfs e).2) := by
    simp [mainMiss, hdl]
  refine ⟨?_, ?_, ?_, ?_, ?_, ?_⟩
  · intro h
    simp [findRouteId, h]
  · intro h rid hfind
    simp only [findRouteId, h, Bool.false_eq_true, if_false] at hfind
    obtain ⟨q, hq, hrid⟩ := Option.map_eq_some'.mp hfind
    obtain ⟨hpq, pre, post, hsplit, hpre⟩ := List.find?_eq_some.mp hq
    obtain ⟨rid2, d⟩ := q
    simp only at hrid
    subst hrid
    have hprops := of_decide_eq_true hpq
    refine ⟨d, pre, post, hsplit, hprops.1, hprops.2, ?_⟩
    intro q hqpre hcond
    have hb := hpre q hqpre
    rw [Bool.not_eq_true'] at hb
    exact (decide_eq_false_iff_not.mp hb) hcond
  · intro h hall
    have hfind : routes.find?
        (fun p => decide (p.2.short_name = line ∧ p.2.type = "0")) = none := by
      rw [List.find?_eq_none]
      intro x hx
      simpa using hall x hx
    simp only [findRouteId, h, Bool.false_eq_true, if_false, hfind,
      Option.map_none']
  · rw [hmm, hmq]
    simp [mainQuery, hnone]
  · rw [hmm, hmq]
    simp [mainQuery, hnone]
  · intro rid d hmemr htype
    rw [hmm, hmq]
    simp only [mainQuery, hnone]
    have hlist : ("  " ++ d.short_name ++ ": " ++ d.long_name) ∈
        sortedRoutesListing (loadRoutes e.routesRows) := by
      simp only [sortedRoutesListing]
      refine List.mem_map.mpr ⟨(rid, d), ?_, rfl⟩
      refine List.mem_filter.mpr ⟨?_, by simp [htype]⟩
      simpa using hmemr
    simp [hlist]

/-- Witness for C6: line "99" is absent from the sample routes table, so
the run fails and lists the tram route "9". -/
theorem c6_route_resolution_witness :
    (((loadRoutes sampleEnv.routesRows).lookup ("T" ++ "9")).isSome = true →
      findRouteId "9" (loadRoutes sampleEnv.routesRows) =
        some ("T" ++ "9")) ∧
    (((loadRoutes sampleEnv.routesRows).lookup ("T" ++ "9")).isSome = false →
      ∀ rid, findRouteId "9" (loadRoutes sampleEnv.routesRows) = some rid →
        ∃ d pre post, loadRoutes sampleEnv.routesRows =
            pre ++ (rid, d) :: post ∧
          d.short_name = "9" ∧ d.type = "0" ∧
          ∀ q ∈ pre, ¬ (q.2.short_name = "9" ∧ q.2.type = "0")) ∧
    (((loadRoutes sampleEnv.routesRows).lookup ("T" ++ "9")).isSome = false →
      (∀ q ∈ loadRoutes sampleEnv.routesRows,
        ¬ (q.2.short_name = "9" ∧ q.2.type = "0")) →
      findRouteId "9" (loadRoutes sampleEnv.routesRows) = none) ∧
    (mainModel { sampleEnv with line := "99" }).exitCode = 1 ∧
    ("Error: Line " ++ { sampleEnv with line := "99" }.line ++
        " not found in GTFS data") ∈
      (mainModel { sampleEnv with line := "99" }).errLines ∧
    (∀ rid d, (rid, d) ∈
        loadRoutes { sampleEnv with line := "99" }.routesRows →
      d.type = "0" →
      ("  " ++ d.short_name ++ ": " ++ d.long_name) ∈
        (mainModel { sampleEnv with line := "99" }).errLines) :=
  c6_route_resolution "9" (loadRoutes sampleEnv.routesRows)
    { sampleEnv with line := "99" } " LV " rfl rfl (by decide) (by decide)

end TramSchedule
